import Mathlib

/-!
Shallow embedding of the client-side logic of the systematic-mapping-study
(SMS) single-page application, together with proofs about its form
validators, wizard state machine, draft persistence, file-upload list and
authentication state.

Conventions used throughout:
* JavaScript strings are modelled as Lean `String`; the JS methods used by
  the code (`trim`, `includes`, `startsWith`, numeric parsing) are defined
  structurally over `String.data` so that concrete instances evaluate in
  the kernel.  JS `length` counts UTF-16 code units while Lean counts code
  points; the two agree on every string below the astral planes, which is
  the only kind the validators are concerned with.
* A JS value that may be `null`/`undefined` is an `Option`.  The record ids
  handed out by the backend are positive integers, so JS truthiness of an
  id coincides with its presence (`Option.isSome`).
* The outcome of an awaited network call is a `CallResult` parameter: the
  embedding of a handler is a function of the outcomes of the calls it
  would make, which models exactly the resolved/rejected promise the code
  awaits.  The message of a rejection is the string the surrounding
  `catch` would extract from the error object.
* `localStorage` is a list of key/value pairs with `get`/`set`/`remove`.
-/

namespace TesisV1

/-- The characters removed by JS `String.prototype.trim` that actually occur
in form input: space, tab and the line terminators. -/
def isJsSpace (c : Char) : Bool :=
  c = ' ' || c = '\t' || c = '\n' || c = '\r'

/-- JS `s.trim()`: strip leading and trailing whitespace. -/
def jsTrim (s : String) : String :=
  ⟨((s.data.dropWhile isJsSpace).reverse.dropWhile isJsSpace).reverse⟩

/-- JS `!s.trim()` for a string `s`: the trimmed string is empty, i.e. the
string is blank. -/
def jsBlank (s : String) : Bool :=
  jsTrim s = ""

/-- JS truthiness of a possibly-absent string: `undefined`, `null` and the
empty string are falsy. -/
def jsStrTruthy : Option String → Bool
  | none => false
  | some s => !(s == "")

/-- Substring containment over character lists, used for JS `includes`. -/
def listContainsSub : List Char → List Char → Bool
  | [], sub => sub.isEmpty
  | c :: rest, sub => sub.isPrefixOf (c :: rest) || listContainsSub rest sub

/-- JS `s.includes(sub)`. -/
def jsIncludes (s sub : String) : Bool :=
  listContainsSub s.data sub.data

/-- JS `s.startsWith(p)`. -/
def jsStartsWith (s p : String) : Bool :=
  p.data.isPrefixOf s.data

/-- Value of a list of decimal digits, most significant first. -/
def digitsVal (l : List Char) : Nat :=
  l.foldl (fun n c => 10 * n + (c.toNat - '0'.toNat)) 0

/-- JS `parseInt(s)` in base 10: skip leading whitespace, read an optional
sign and then the longest digit run; `none` models `NaN`. -/
def jsParseInt (s : String) : Option Int :=
  let t := s.data.dropWhile isJsSpace
  let core : List Char × Bool :=
    match t with
    | '-' :: rest => (rest, true)
    | '+' :: rest => (rest, false)
    | rest => (rest, false)
  let ds := core.1.takeWhile Char.isDigit
  if ds.isEmpty then none
  else if core.2 then some (-(digitsVal ds : Int)) else some ((digitsVal ds : Int))

/-- JS `ToNumber` on the value of a numeric form input: the empty or blank
string (a cleared input) is 0; otherwise an optional sign followed only by
digits.  Any other string — not producible by a number input holding an
integer year; fractional and exponent forms are out of scope here — is
`NaN` (`none`). -/
def jsToNumber (s : String) : Option Int :=
  let t := jsTrim s
  if t = "" then some 0
  else
    match t.data with
    | '-' :: rest =>
      if rest.isEmpty = false && rest.all Char.isDigit then some (-(digitsVal rest : Int))
      else none
    | '+' :: rest =>
      if rest.isEmpty = false && rest.all Char.isDigit then some ((digitsVal rest : Int))
      else none
    | ds => if ds.all Char.isDigit then some ((digitsVal ds : Int)) else none

/-- A value held by a controlled form field wired to a numeric input: a
number on first load or after a server load, but the input's string after
any `handleChange` edit (`e.target.value` is always a string). -/
inductive JSValue where
  | num (n : Int)
  | str (s : String)
  deriving Repr, DecidableEq

/-- Numeric coercion of a form-field value (`none` plays the role of NaN). -/
def JSValue.toNum : JSValue → Option Int
  | .num n => some n
  | .str s => jsToNumber s

/-- Lexicographic strict order on character lists by code point, as JS
compares strings (it compares UTF-16 code units; the two orders agree on
the basic multilingual plane). -/
def listLexLt : List Char → List Char → Bool
  | [], [] => false
  | [], _ :: _ => true
  | _ :: _, [] => false
  | a :: as, b :: bs => if a < b then true else if b < a then false else listLexLt as bs

/-- JS `a < b` on two strings. -/
def jsStrLt (a b : String) : Bool :=
  listLexLt a.data b.data

/-- JS `a > b` on form-field values, following the abstract relational
comparison: when both operands are strings the comparison is
lexicographic; otherwise both sides are coerced to numbers, a NaN making
the comparison false. -/
def jsGreaterThan (a b : JSValue) : Bool :=
  match a, b with
  | .str x, .str y => jsStrLt y x
  | _, _ =>
    match a.toNum, b.toNum with
    | some x, some y => decide (y < x)
    | _, _ => false

/-- The resolution of an awaited promise: either a value or a thrown error,
carried as the message string the surrounding `catch` would extract. -/
inductive CallResult (α : Type) where
  | ok (val : α)
  | exn (msg : String)
  deriving Repr, DecidableEq

/-- The browser `localStorage`, as a list of key/value pairs. -/
abbrev Store := List (String × String)

/-- JS `localStorage.getItem k` (`none` plays the role of JS `null`). -/
def Store.get (s : Store) (k : String) : Option String :=
  (s.find? (fun p => p.1 == k)).map (fun p => p.2)

/-- JS `localStorage.setItem k v`: any previous binding of `k` is replaced. -/
def Store.set (s : Store) (k v : String) : Store :=
  (s.filter (fun p => p.1 != k)) ++ [(k, v)]

/-- JS `localStorage.removeItem k`. -/
def Store.remove (s : Store) (k : String) : Store :=
  s.filter (fun p => p.1 != k)

end TesisV1

/-! ### Registration form (`RegisterForm`) -/

namespace TesisV1.Register

/-- The registration form state (`formData`). -/
structure RegForm where
  username : String
  email : String
  password : String
  confirmPassword : String
  deriving Repr, DecidableEq

/-- The `errs` object built by `validate`: one optional message per field. -/
structure RegErrors where
  username : Option String := none
  email : Option String := none
  password : Option String := none
  confirmPassword : Option String := none
  deriving Repr, DecidableEq

/-- The `validate` function of the registration form.  Each `if` mirrors one
statement of the source; a later assignment to the same key of `errs`
overwrites an earlier one, exactly as in JS. -/
def validate (f : RegForm) : RegErrors :=
  let errs : RegErrors := {}
  let errs := if f.username = "" then
    { errs with username := some "El nombre de usuario es obligatorio" } else errs
  let errs := if f.email = "" then
    { errs with email := some "El correo es obligatorio" } else errs
  let errs := if jsIncludes f.email "@" = false then
    { errs with email := some "Correo inválido" } else errs
  let errs := if f.password.length < 8 then
    { errs with password := some "Mínimo 8 caracteres" } else errs
  let errs := if f.password ≠ f.confirmPassword then
    { errs with confirmPassword := some "Las contraseñas no coinciden" } else errs
  errs

end TesisV1.Register

/-! ### The wizard (`ProcessManager`) -/

namespace TesisV1.PM

/-- The wizard's `formData` state.  The two year fields hold the numbers of
`initialFormData` and of the server records until the user edits them,
after which they hold the number inputs' string values, so they are
`JSValue`. -/
structure FormData where
  titulo_estudio : String
  autores : String
  pregunta_principal : String
  subpregunta_1 : String
  subpregunta_2 : String
  subpregunta_3 : String
  cadena_busqueda : String
  anio_inicio : JSValue
  anio_final : JSValue
  criterios_inclusion : String
  criterios_exclusion : String
  deriving Repr, DecidableEq

/-- The `newErrors` object built by `validateStep`: one optional message per
validated field. -/
structure StepErrors where
  titulo_estudio : Option String := none
  autores : Option String := none
  pregunta_principal : Option String := none
  cadena_busqueda : Option String := none
  anio_inicio : Option String := none
  deriving Repr, DecidableEq

/-- JS `Object.keys(newErrors).length === 0`: no field error was recorded. -/
def StepErrors.isEmpty (e : StepErrors) : Bool :=
  e.titulo_estudio.isNone && e.autores.isNone && e.pregunta_principal.isNone
    && e.cadena_busqueda.isNone && e.anio_inicio.isNone

/-- The component's `errors` state: the field errors of the last
`setErrors(newErrors)` plus the optional `general` key.  A `setErrors`
call replaces the whole object. -/
structure Errors where
  fields : StepErrors := {}
  general : Option String := none
  deriving Repr, DecidableEq

/-- The error object `validateStep` builds for a given step. -/
def validateStepErrors (step : Int) (fd : FormData) : StepErrors :=
  let newErrors : StepErrors := {}
  let newErrors :=
    if step = 1 then
      let newErrors := if jsBlank fd.titulo_estudio then
        { newErrors with titulo_estudio := some "El título es obligatorio" } else newErrors
      let newErrors := if jsBlank fd.autores then
        { newErrors with autores := some "El autor es obligatorio" } else newErrors
      if jsBlank fd.pregunta_principal then
        { newErrors with pregunta_principal := some "La pregunta principal es obligatoria" }
      else newErrors
    else newErrors
  if step = 2 then
    let newErrors := if jsBlank fd.cadena_busqueda then
      { newErrors with cadena_busqueda := some "La cadena de búsqueda es obligatoria" }
    else newErrors
    if jsGreaterThan fd.anio_inicio fd.anio_final then
      { newErrors with anio_inicio := some "El año de inicio debe ser menor que el año final" }
    else newErrors
  else newErrors

/-- Return value of `validateStep`: true when no error was recorded. -/
def validateStep (step : Int) (fd : FormData) : Bool :=
  (validateStepErrors step fd).isEmpty

/-- The component state of `ProcessManager` the handlers read and write. -/
structure PMState where
  smsId : Option Nat
  currentStep : Int
  formData : FormData
  errors : Errors
  deriving Repr, DecidableEq

/-- JSON string escaping of the two characters `JSON.stringify` must escape
in the form's text fields. -/
def jsonEscape (s : String) : String :=
  ⟨s.data.foldr
    (fun c acc =>
      if c = '"' then '\\' :: '"' :: acc
      else if c = '\\' then '\\' :: '\\' :: acc
      else c :: acc) []⟩

/-- A JSON string literal. -/
def jsonString (s : String) : String :=
  "\"" ++ jsonEscape s ++ "\""

/-- JSON serialization of a form-field value: `JSON.stringify` emits a bare
number and a quoted string. -/
def jsonOfValue : JSValue → String
  | .num n => toString n
  | .str s => jsonString s

/-- JS `JSON.stringify(formData)`, the value stored under `sms_draft`. -/
def serializeDraft (fd : FormData) : String :=
  "\x7b" ++ jsonString "titulo_estudio" ++ ":" ++ jsonString fd.titulo_estudio
  ++ "," ++ jsonString "autores" ++ ":" ++ jsonString fd.autores
  ++ "," ++ jsonString "pregunta_principal" ++ ":" ++ jsonString fd.pregunta_principal
  ++ "," ++ jsonString "subpregunta_1" ++ ":" ++ jsonString fd.subpregunta_1
  ++ "," ++ jsonString "subpregunta_2" ++ ":" ++ jsonString fd.subpregunta_2
  ++ "," ++ jsonString "subpregunta_3" ++ ":" ++ jsonString fd.subpregunta_3
  ++ "," ++ jsonString "cadena_busqueda" ++ ":" ++ jsonString fd.cadena_busqueda
  ++ "," ++ jsonString "anio_inicio" ++ ":" ++ jsonOfValue fd.anio_inicio
  ++ "," ++ jsonString "anio_final" ++ ":" ++ jsonOfValue fd.anio_final
  ++ "," ++ jsonString "criterios_inclusion" ++ ":" ++ jsonString fd.criterios_inclusion
  ++ "," ++ jsonString "criterios_exclusion" ++ ":" ++ jsonString fd.criterios_exclusion
  ++ "\x7d"

/-- Result of running the `try` block of `nextStep`: the `smsId` and
`localStorage` contents after the effects that did happen, and the message
of the exception that reached the outer `catch`, if any.  The request
payloads sent to the backend are not modelled — no claim mentions them —
only whether each awaited call resolves or rejects. -/
structure TryOutcome where
  smsId : Option Nat
  store : Store
  failed : Option String
  deriving Repr, DecidableEq

/-- The `try` block of `nextStep`.  On step 1 without an id it awaits
`smsService.createInitialSMS` (`createRes`; `ok none` models a response
without a valid `id`, which the code turns into a thrown error), stores the
new id, the draft and the step in `localStorage`, and then awaits
`smsService.updateSMSCriteria` (`updRes`), whose rejection is rethrown with
the `Error al actualizar criterios: ` prefix.  On any other step nothing is
awaited. -/
def nextStepTry (st : PMState) (store : Store)
    (createRes : CallResult (Option Nat)) (updRes : CallResult Unit) : TryOutcome :=
  if st.currentStep = 1 then
    match st.smsId with
    | none =>
      match createRes with
      | .exn m => ⟨none, store, some m⟩
      | .ok none => ⟨none, store, some "No se recibió un ID válido del servidor al crear el SMS"⟩
      | .ok (some rid) =>
        let store1 := ((store.set "sms_id" (toString rid)).set "sms_draft"
          (serializeDraft st.formData)).set "sms_step" (toString st.currentStep)
        match updRes with
        | .exn m => ⟨some rid, store1, some ("Error al actualizar criterios: " ++ m)⟩
        | .ok _ => ⟨some rid, store1, none⟩
    | some sid =>
      match updRes with
      | .exn m => ⟨some sid, store, some ("Error al actualizar criterios: " ++ m)⟩
      | .ok _ => ⟨some sid, store, none⟩
  else ⟨st.smsId, store, none⟩

/-- The `nextStep` handler.  If per-step validation fails it only records
the field errors; otherwise it runs the `try` block: on success it advances
`currentStep` by one, on a caught exception it leaves `currentStep` alone
and replaces `errors` with a single `general` message prefixed
`Error al guardar: `. -/
def nextStep (st : PMState) (store : Store)
    (createRes : CallResult (Option Nat)) (updRes : CallResult Unit) : PMState × Store :=
  let newErrors := validateStepErrors st.currentStep st.formData
  if newErrors.isEmpty = false then
    ({ st with errors := ⟨newErrors, none⟩ }, store)
  else
    let t := nextStepTry st store createRes updRes
    match t.failed with
    | none =>
      ({ st with
          smsId := t.smsId,
          currentStep := st.currentStep + 1,
          errors := ⟨newErrors, none⟩ }, t.store)
    | some m =>
      ({ st with
          smsId := t.smsId,
          errors := ⟨{}, some ("Error al guardar: " ++ m)⟩ }, t.store)

/-- The `prevStep` handler: `setCurrentStep(prev => prev - 1)`. -/
def prevStep (st : PMState) : PMState :=
  { st with currentStep := st.currentStep - 1 }

/-- Result of `handleSubmit`: the new component state and `localStorage`,
and whether the handler reached `navigate('/sms')`. -/
structure SubmitOutcome where
  state : PMState
  store : Store
  navigated : Bool
  deriving Repr, DecidableEq

/-- The `handleSubmit` handler.  After per-step validation it throws when
`smsId` is absent, returns early when either criteria field is blank, and
otherwise awaits `smsService.updateSMSCriteria` (`updRes`): on success it
removes the three draft keys from `localStorage` and navigates away; a
rejection is caught and recorded under `errors.general` with the
`Error al finalizar: ` prefix, leaving `localStorage` untouched. -/
def handleSubmit (st : PMState) (store : Store) (updRes : CallResult Unit) : SubmitOutcome :=
  let newErrors := validateStepErrors st.currentStep st.formData
  if newErrors.isEmpty = false then
    ⟨{ st with errors := ⟨newErrors, none⟩ }, store, false⟩
  else
    let st0 : PMState := { st with errors := ⟨newErrors, none⟩ }
    match st.smsId with
    | none =>
      ⟨{ st0 with errors := ⟨{}, some ("Error al finalizar: "
          ++ "No se encontró el ID del SMS. Por favor, vuelva al inicio del proceso.")⟩ },
        store, false⟩
    | some _ =>
      if jsBlank st.formData.criterios_inclusion || jsBlank st.formData.criterios_exclusion then
        ⟨{ st0 with errors :=
            ⟨{}, some "Los criterios de inclusión y exclusión son obligatorios"⟩ }, store, false⟩
      else
        match updRes with
        | .ok _ =>
          ⟨st0, ((store.remove "sms_draft").remove "sms_step").remove "sms_id", true⟩
        | .exn m =>
          ⟨{ st0 with errors := ⟨{}, some ("Error al finalizar: " ++ m)⟩ }, store, false⟩

end TesisV1.PM

/-! ### Article validation (`smsService.validateArticleData`) -/

namespace TesisV1.SmsService

/-- The fields of an article record that `validateArticleData` inspects;
`none` models an absent (`undefined`) field. -/
structure ArticleData where
  titulo : Option String
  autores : Option String
  anio_publicacion : Option String
  doi : Option String
  estado : Option String
  deriving Repr, DecidableEq

/-- The `errors` object built by `validateArticleData`. -/
structure ArticleErrors where
  titulo : Option String := none
  autores : Option String := none
  anio_publicacion : Option String := none
  doi : Option String := none
  estado : Option String := none
  deriving Repr, DecidableEq

/-- JS `Object.keys(errors).length === 0` for `ArticleErrors`. -/
def ArticleErrors.isEmpty (e : ArticleErrors) : Bool :=
  e.titulo.isNone && e.autores.isNone && e.anio_publicacion.isNone
    && e.doi.isNone && e.estado.isNone

/-- The record `validateArticleData` returns. -/
structure ArticleValidation where
  isValid : Bool
  errors : ArticleErrors
  deriving Repr, DecidableEq

/-- `smsService.validateArticleData`.  Each guard mirrors one `if` of the
source, with JS short-circuit truthiness spelt out on optional fields. -/
def validateArticleData (a : ArticleData) : ArticleValidation :=
  let errors : ArticleErrors := {}
  let errors := if !jsStrTruthy a.titulo || jsBlank (a.titulo.getD "") then
    { errors with titulo := some "El título es obligatorio" } else errors
  let errors := if !jsStrTruthy a.autores || jsBlank (a.autores.getD "") then
    { errors with autores := some "Los autores son obligatorios" } else errors
  let errors :=
    if jsStrTruthy a.anio_publicacion then
      match jsParseInt (a.anio_publicacion.getD "") with
      | none =>
        { errors with anio_publicacion := some "El año debe estar entre 1900 y 2030" }
      | some year =>
        if year < 1900 || year > 2030 then
          { errors with anio_publicacion := some "El año debe estar entre 1900 y 2030" }
        else errors
    else errors
  let errors :=
    if jsStrTruthy a.doi && !jsBlank (a.doi.getD "")
        && !jsStartsWith (a.doi.getD "") "10." then
      { errors with doi := some "El DOI debe tener un formato válido (ej: 10.1000/journal.2023.123)" }
    else errors
  let errors :=
    if jsStrTruthy a.estado
        && !(["SELECTED", "REJECTED", "PENDING"].contains (a.estado.getD "")) then
      { errors with estado := some "El estado debe ser uno de: SELECTED, REJECTED, PENDING" }
    else errors
  ⟨errors.isEmpty, errors⟩

end TesisV1.SmsService

/-! ### PDF upload list (`SourcesStep`) -/

namespace TesisV1.Sources

/-- A browser `File` object as `handleFiles` inspects it (`type` is the
MIME type; it is named `ftype` because `type` is reserved in Lean). -/
structure JSFile where
  name : String
  ftype : String
  size : Nat
  deriving Repr, DecidableEq

/-- An entry of the `uploadedFiles` state, as pushed by `handleFiles`. -/
structure UploadedFile where
  id : Nat
  name : String
  size : Nat
  file : JSFile
  deriving Repr, DecidableEq

/-- The `for` loop of `handleFiles`: `now` is `Date.now()`, `i` the loop
index.  A non-PDF or over-10MB file is skipped and overwrites
`uploadError`; the error reported after the loop is the one of the last bad
file (`none` when every file was accepted). -/
def processFiles (now : Nat) : Nat → List JSFile → List UploadedFile × Option String
  | _, [] => ([], none)
  | i, f :: rest =>
    let r := processFiles now (i + 1) rest
    if f.ftype != "application/pdf" then
      (r.1, some (r.2.getD "Solo se permiten archivos PDF."))
    else if f.size > 10 * 1024 * 1024 then
      (r.1, some (r.2.getD "Los archivos no pueden superar los 10MB."))
    else
      (⟨now + i, f.name, f.size, f⟩ :: r.1, r.2)

/-- The `handleFiles` handler: a batch whose raw size would push the list
past 40 entries is rejected wholesale; otherwise the accepted files are
appended.  Returns the new `uploadedFiles` list and the final
`uploadError` string (`handleFiles` clears it to the empty string first). -/
def handleFiles (now : Nat) (uploadedFiles : List UploadedFile) (files : List JSFile) :
    List UploadedFile × String :=
  if uploadedFiles.length + files.length > 40 then
    (uploadedFiles, "No puedes subir más de 40 archivos en total.")
  else
    let r := processFiles now 0 files
    (uploadedFiles ++ r.1, r.2.getD "")

/-- The `handleRemoveFile` handler: drop the entry with the given id. -/
def handleRemoveFile (id : Nat) (uploadedFiles : List UploadedFile) : List UploadedFile :=
  uploadedFiles.filter (fun file => file.id != id)

/-- One user interaction with the upload list. -/
inductive SourcesOp where
  | addFiles (now : Nat) (files : List JSFile)
  | removeFile (id : Nat)
  deriving Repr, DecidableEq

/-- Apply one interaction to the `uploadedFiles` state. -/
def applyOp (l : List UploadedFile) : SourcesOp → List UploadedFile
  | .addFiles now files => (handleFiles now l files).1
  | .removeFile id => handleRemoveFile id l

/-- Run a sequence of interactions from a given `uploadedFiles` state. -/
def runOps (l : List UploadedFile) (ops : List SourcesOp) : List UploadedFile :=
  ops.foldl applyOp l

/-- An entry created from a PDF of at most 10MB. -/
def goodEntry (e : UploadedFile) : Bool :=
  e.file.ftype == "application/pdf" && e.file.size ≤ 10 * 1024 * 1024

/-- The invariant of the upload list: at most 40 entries, all of them
created from PDFs of at most 10MB. -/
def listInvariant (l : List UploadedFile) : Prop :=
  l.length ≤ 40 ∧ ∀ e ∈ l, goodEntry e = true

end TesisV1.Sources

/-! ### Authentication state (`AuthContext`) -/

namespace TesisV1.Auth

/-- The authentication state the context provider holds. -/
structure AuthState where
  user : Option String
  isAuthenticated : Bool
  deriving Repr, DecidableEq

/-- Result of `logout`: the new state and `localStorage`, plus the message
of the server error that propagates past the `finally` block, if any. -/
structure LogoutOutcome where
  state : AuthState
  store : Store
  rethrown : Option String
  deriving Repr, DecidableEq

/-- The `logout` handler: `authService.logout()` is awaited inside `try`,
and the `finally` block clears the token, the user and the flag whether or
not the call rejected. -/
def logout (st : AuthState) (store : Store) (callRes : CallResult Unit) : LogoutOutcome :=
  let cleared : AuthState := { user := none, isAuthenticated := false }
  let store1 := store.remove "access_token"
  match callRes with
  | .ok _ => ⟨cleared, store1, none⟩
  | .exn m => ⟨cleared, store1, some m⟩

end TesisV1.Auth

/-! ### The shared axios instance's response interceptor -/

namespace TesisV1.Axios

/-- What the response-error interceptor does with a failed request. -/
inductive InterceptorAction where
  | retryRequest (m : String)
  | redirectLogin (m : String)
  | reject (m : String)
  deriving Repr, DecidableEq

/-- The rejection handler of `api.interceptors.response.use`: on a 401 it
awaits `authService.refreshToken()` (`refreshRes`) and re-issues the
original request (`return api(error.config)`); if the refresh rejects it
redirects to the login page and rejects; any other status is rejected
untouched.  `status` is `error.response.status` and `errMsg` the error's
message. -/
def responseErrorInterceptor (status : Nat) (refreshRes : CallResult Unit)
    (errMsg : String) : InterceptorAction :=
  if status = 401 then
    match refreshRes with
    | .ok _ => .retryRequest errMsg
    | .exn m => .redirectLogin m
  else .reject errMsg

/-- The property claimed of the interceptor: no failed request is ever
re-issued, whatever the status and the refresh outcome. -/
def NeverRetries : Prop :=
  ∀ (status : Nat) (refreshRes : CallResult Unit) (errMsg : String),
    ∀ m, responseErrorInterceptor status refreshRes errMsg ≠ .retryRequest m

end TesisV1.Axios

/-! ## Helper lemmas -/

namespace TesisV1

theorem Store.get_remove_self (s : Store) (k : String) :
    (s.remove k).get k = none := by
  have hfind : (s.remove k).find? (fun p => p.1 == k) = none := by
    rw [List.find?_eq_none]
    intro p hp
    have h2 := List.of_mem_filter hp
    simp only [bne_iff_ne, ne_eq] at h2
    simp [h2]
  simp [Store.get, hfind]

theorem Store.get_remove_other (s : Store) (k k' : String) (h : k' ≠ k) :
    (s.remove k).get k' = s.get k' := by
  induction s with
  | nil => rfl
  | cons p rest ih =>
    by_cases hpk : p.1 = k
    · have h1 : (p.1 != k) = false := by simp [hpk]
      have h2 : (p.1 == k') = false := by
        simp only [beq_eq_false_iff_ne, ne_eq]
        intro e
        exact h (by rw [← e, hpk])
      simp only [Store.remove, List.filter_cons, h1, Bool.false_eq_true, if_false] at ih ⊢
      rw [ih]
      simp [Store.get, List.find?_cons, h2]
    · have h1 : (p.1 != k) = true := by simp [hpk]
      by_cases hpk' : p.1 = k'
      · have h2 : (p.1 == k') = true := by simp [hpk']
        simp [Store.remove, List.filter_cons, h1, Store.get, List.find?_cons, h2]
      · have h2 : (p.1 == k') = false := by simp [hpk']
        simp only [Store.remove, List.filter_cons, h1, if_true] at ih ⊢
        simp only [Store.get, List.find?_cons, h2] at ih ⊢
        exact ih

theorem isPrefixOf_append (l t : List Char) : l.isPrefixOf (l ++ t) = true := by
  simp only [List.isPrefixOf_iff_prefix]
  exact List.prefix_append l t

theorem jsStartsWith_append (p m : String) : jsStartsWith (p ++ m) p = true := by
  unfold jsStartsWith
  exact isPrefixOf_append p.data m.data

theorem append_ne_empty_of_ne (p m : String) (hp : p.data.length ≠ 0) :
    (p ++ m) ≠ "" := by
  intro h
  have hdata : p.data ++ m.data = [] := congrArg String.data h
  have hlen := congrArg List.length hdata
  simp [List.length_append] at hlen
  exact hp hlen.1

end TesisV1

/-! ## The claims -/

namespace TesisV1

/-- C3: the registration validator returns the password-length error exactly
when the password has fewer than 8 characters, and the password-mismatch
error exactly when the two password fields differ. -/
theorem register_validate_password_rules (f : Register.RegForm) :
    ((Register.validate f).password = some "Mínimo 8 caracteres" ↔ f.password.length < 8)
    ∧ ((Register.validate f).confirmPassword = some "Las contraseñas no coinciden"
        ↔ f.password ≠ f.confirmPassword) := by
  unfold Register.validate
  constructor <;> · split_ifs <;> simp_all

/-- Witness for C3 at a concrete form state with a short password and
mismatched confirmation. -/
theorem register_validate_password_rules_witness :
    (Register.validate ⟨"u", "a@b", "1234567", "x"⟩).password = some "Mínimo 8 caracteres"
    ∧ (Register.validate ⟨"u", "a@b", "1234567", "x"⟩).confirmPassword
      = some "Las contraseñas no coinciden" :=
  ⟨(register_validate_password_rules ⟨"u", "a@b", "1234567", "x"⟩).1.mpr (by decide),
   (register_validate_password_rules ⟨"u", "a@b", "1234567", "x"⟩).2.mpr (by decide)⟩

/-- C8: with an empty email field the email error `validate` returns is
'Correo inválido', and the message 'El correo es obligatorio' is never the
returned email error for any form state, because the unconditional
`@`-containment check overwrites it. -/
theorem register_validate_email_required_unreachable (f : Register.RegForm) :
    (f.email = "" → (Register.validate f).email = some "Correo inválido")
    ∧ (Register.validate f).email ≠ some "El correo es obligatorio" := by
  have hempty : jsIncludes "" "@" = false := rfl
  unfold Register.validate
  constructor
  · intro he
    split_ifs with h1 h2 h3 <;> simp_all
  · split_ifs with h1 h2 h3 <;> simp_all

/-- Witness for C8 at a concrete form state with an empty email. -/
theorem register_validate_email_required_unreachable_witness :
    (Register.validate ⟨"u", "", "12345678", "12345678"⟩).email = some "Correo inválido" :=
  (register_validate_email_required_unreachable ⟨"u", "", "12345678", "12345678"⟩).1 rfl

/-- C10: `logout` always clears the local authentication state: whether the
`authService.logout` call resolves or rejects, afterwards the
`access_token` key is gone from `localStorage`, `user` is `null` and
`isAuthenticated` is false. -/
theorem logout_always_clears_state (st : Auth.AuthState) (store : Store)
    (callRes : CallResult Unit) :
    (Auth.logout st store callRes).state.user = none
    ∧ (Auth.logout st store callRes).state.isAuthenticated = false
    ∧ (Auth.logout st store callRes).store.get "access_token" = none := by
  cases callRes <;> simp [Auth.logout, Store.get_remove_self]

/-- C2 counterexample: the interceptor of the shared axios instance does
re-issue a request: on a 401 whose token refresh resolves, it returns
`api(error.config)`. -/
theorem axios_retry_counterexample : ¬ Axios.NeverRetries :=
  fun h => h 401 (.ok ()) "Request failed with status code 401"
    "Request failed with status code 401" rfl

/-- C2 amended: a failed response with status other than 401 is never
retried; a 401 triggers a token refresh, after whose success the original
request is re-issued, and after whose failure the browser is redirected to
the login page with the refresh error rejected. -/
theorem axios_interceptor_retry_policy (status : Nat) (refreshRes : CallResult Unit)
    (errMsg : String) :
    (status ≠ 401 →
      Axios.responseErrorInterceptor status refreshRes errMsg = .reject errMsg)
    ∧ (status = 401 → refreshRes = .ok () →
      Axios.responseErrorInterceptor status refreshRes errMsg = .retryRequest errMsg)
    ∧ (status = 401 → ∀ m, refreshRes = .exn m →
      Axios.responseErrorInterceptor status refreshRes errMsg = .redirectLogin m) := by
  refine ⟨fun h => ?_, fun h hr => ?_, fun h m hr => ?_⟩
  · simp [Axios.responseErrorInterceptor, h]
  · simp [Axios.responseErrorInterceptor, h, hr]
  · simp [Axios.responseErrorInterceptor, h, hr]

/-- Witness for the amended C2 at concrete statuses and refresh outcomes. -/
theorem axios_interceptor_retry_policy_witness :
    Axios.responseErrorInterceptor 500 (.ok ()) "boom" = .reject "boom"
    ∧ Axios.responseErrorInterceptor 401 (.ok ()) "unauth" = .retryRequest "unauth"
    ∧ Axios.responseErrorInterceptor 401 (.exn "bad") "unauth" = .redirectLogin "bad" :=
  ⟨(axios_interceptor_retry_policy 500 (.ok ()) "boom").1 (by decide),
   (axios_interceptor_retry_policy 401 (.ok ()) "unauth").2.1 rfl rfl,
   (axios_interceptor_retry_policy 401 (.exn "bad") "unauth").2.2 rfl "bad" rfl⟩

end TesisV1

namespace TesisV1

/-- C1 counterexample: on the reachable step-2 form state whose year inputs
have been edited to the strings "999" and "1000" (search string non-blank),
the years denote 999 ≤ 1000, yet `validateStep 2` returns false and the
out-of-order error is recorded, because JS compares the two input strings
lexicographically; conversely at "10000" versus "9999" no error is
recorded although 10000 > 9999. -/
theorem validateStep2_lexicographic_counterexample :
    ((JSValue.str "999").toNum = some 999
      ∧ (JSValue.str "1000").toNum = some 1000
      ∧ (999 : Int) ≤ 1000
      ∧ jsBlank "q" = false
      ∧ PM.validateStep 2
          ⟨"t", "a", "p", "", "", "", "q", .str "999", .str "1000", "i", "e"⟩ = false
      ∧ (PM.validateStepErrors 2
          ⟨"t", "a", "p", "", "", "", "q", .str "999", .str "1000", "i", "e"⟩).anio_inicio
        = some "El año de inicio debe ser menor que el año final")
    ∧ ((JSValue.str "10000").toNum = some 10000
      ∧ (JSValue.str "9999").toNum = some 9999
      ∧ (10000 : Int) > 9999
      ∧ PM.validateStep 2
          ⟨"t", "a", "p", "", "", "", "q", .str "10000", .str "9999", "i", "e"⟩ = true
      ∧ (PM.validateStepErrors 2
          ⟨"t", "a", "p", "", "", "", "q", .str "10000", .str "9999", "i", "e"⟩).anio_inicio
        = none) := by
  decide

/-- C1 amended: on every form state whose year fields hold numbers — as on
first load and after a server load — step-2 validation succeeds exactly
when the search string is non-blank and the start year does not exceed the
end year; and on every form state, whenever the code's year comparison
(JS `>`, lexicographic once both inputs have been edited to strings)
evaluates true, the error recorded under `anio_inicio` is
'El año de inicio debe ser menor que el año final'. -/
theorem validateStep2_correct (fd : PM.FormData) :
    (∀ a b : Int, fd.anio_inicio = .num a → fd.anio_final = .num b →
      (PM.validateStep 2 fd = true ↔
        (jsBlank fd.cadena_busqueda = false ∧ a ≤ b)))
    ∧ (jsGreaterThan fd.anio_inicio fd.anio_final = true →
      (PM.validateStepErrors 2 fd).anio_inicio
        = some "El año de inicio debe ser menor que el año final") := by
  constructor
  · intro a b ha hb
    have hg : jsGreaterThan fd.anio_inicio fd.anio_final = decide (b < a) := by
      rw [ha, hb]; rfl
    unfold PM.validateStep PM.validateStepErrors PM.StepErrors.isEmpty
    by_cases hc : jsBlank fd.cadena_busqueda <;>
      by_cases hy : b < a <;>
      simp [hc, hg, hy] <;> omega
  · intro hy
    unfold PM.validateStepErrors
    by_cases hc : jsBlank fd.cadena_busqueda <;> simp [hc, hy]

/-- Witness for the amended C1: a number-valued form state with ordered
years passes step-2 validation, and a number-valued out-of-order state
records the error through the same JS comparison. -/
theorem validateStep2_correct_witness :
    PM.validateStep 2 ⟨"t", "a", "p", "", "", "", "q", .num 2000, .num 2025, "i", "e"⟩ = true
    ∧ (PM.validateStepErrors 2
        ⟨"t", "a", "p", "", "", "", "q", .num 2026, .num 2025, "i", "e"⟩).anio_inicio
      = some "El año de inicio debe ser menor que el año final" :=
  ⟨((validateStep2_correct ⟨"t", "a", "p", "", "", "", "q", .num 2000, .num 2025, "i", "e"⟩).1
      2000 2025 rfl rfl).mpr ⟨by decide, by decide⟩,
   (validateStep2_correct ⟨"t", "a", "p", "", "", "", "q", .num 2026, .num 2025, "i", "e"⟩).2
      (by decide)⟩

/-- C4: the wizard's steps form a fixed linear sequence: a `nextStep` whose
validation passes and whose incremental save does not throw moves
`currentStep` to exactly `currentStep + 1`, and `prevStep` moves it to
exactly `currentStep - 1`. -/
theorem wizard_linear_steps (st : PM.PMState) (store : Store)
    (createRes : CallResult (Option Nat)) (updRes : CallResult Unit) :
    ((PM.validateStep st.currentStep st.formData = true
      ∧ (PM.nextStepTry st store createRes updRes).failed = none) →
      (PM.nextStep st store createRes updRes).1.currentStep = st.currentStep + 1)
    ∧ (PM.prevStep st).currentStep = st.currentStep - 1 := by
  constructor
  · rintro ⟨hv, hok⟩
    have hv' : (PM.validateStepErrors st.currentStep st.formData).isEmpty = true := hv
    simp [PM.nextStep, hv', hok]
  · rfl

/-- Witness for C4: a concrete `nextStep` from step 2 advances to step 3
and a concrete `prevStep` from step 2 goes back to step 1. -/
theorem wizard_linear_steps_witness :
    (PM.nextStep ⟨some 5, 2, ⟨"t", "a", "p", "", "", "", "q", .num 2000, .num 2025, "i", "e"⟩, {}⟩
      [] (.ok none) (.ok ())).1.currentStep = 2 + 1
    ∧ (PM.prevStep ⟨some 5, 2, ⟨"t", "a", "p", "", "", "", "q", .num 2000, .num 2025, "i", "e"⟩, {}⟩).currentStep
      = 2 - 1 :=
  ⟨(wizard_linear_steps ⟨some 5, 2, ⟨"t", "a", "p", "", "", "", "q", .num 2000, .num 2025, "i", "e"⟩, {}⟩
      [] (.ok none) (.ok ())).1 ⟨by decide, by decide⟩,
   (wizard_linear_steps ⟨some 5, 2, ⟨"t", "a", "p", "", "", "", "q", .num 2000, .num 2025, "i", "e"⟩, {}⟩
      [] (.ok none) (.ok ())).2⟩

/-- C5: when the incremental save of `nextStep` throws, the wizard does not
advance — `currentStep` is unchanged — and `errors.general` becomes a
non-empty string beginning with `Error al guardar: `. -/
theorem nextStep_failure_recovery (st : PM.PMState) (store : Store)
    (createRes : CallResult (Option Nat)) (updRes : CallResult Unit) (m : String)
    (hv : PM.validateStep st.currentStep st.formData = true)
    (hfail : (PM.nextStepTry st store createRes updRes).failed = some m) :
    (PM.nextStep st store createRes updRes).1.currentStep = st.currentStep
    ∧ (PM.nextStep st store createRes updRes).1.errors.general
        = some ("Error al guardar: " ++ m)
    ∧ ("Error al guardar: " ++ m) ≠ ""
    ∧ jsStartsWith ("Error al guardar: " ++ m) "Error al guardar: " = true := by
  have hv' : (PM.validateStepErrors st.currentStep st.formData).isEmpty = true := hv
  refine ⟨?_, ?_, append_ne_empty_of_ne _ m (by decide),
    jsStartsWith_append "Error al guardar: " m⟩
  · simp [PM.nextStep, hv', hfail]
  · simp [PM.nextStep, hv', hfail]

/-- Witness for C5: a concrete `nextStep` on step 1 whose creation call
rejects stays on step 1 and records the prefixed general error. -/
theorem nextStep_failure_recovery_witness :
    (PM.nextStep ⟨none, 1, ⟨"t", "a", "p", "", "", "", "q", .num 2000, .num 2025, "i", "e"⟩, {}⟩
      [] (.exn "boom") (.ok ())).1.currentStep = 1
    ∧ (PM.nextStep ⟨none, 1, ⟨"t", "a", "p", "", "", "", "q", .num 2000, .num 2025, "i", "e"⟩, {}⟩
      [] (.exn "boom") (.ok ())).1.errors.general = some ("Error al guardar: " ++ "boom") :=
  ⟨(nextStep_failure_recovery ⟨none, 1, ⟨"t", "a", "p", "", "", "", "q", .num 2000, .num 2025, "i", "e"⟩, {}⟩
      [] (.exn "boom") (.ok ()) "boom" (by decide) (by decide)).1,
   (nextStep_failure_recovery ⟨none, 1, ⟨"t", "a", "p", "", "", "", "q", .num 2000, .num 2025, "i", "e"⟩, {}⟩
      [] (.exn "boom") (.ok ()) "boom" (by decide) (by decide)).2.1⟩

/-- C7: with a present `smsId` and non-blank criteria, a `handleSubmit`
whose save resolves removes all three draft keys from `localStorage`,
while a `handleSubmit` whose save rejects leaves `localStorage` exactly as
it was. -/
theorem handleSubmit_draft_cleanup (st : PM.PMState) (store : Store)
    (updRes : CallResult Unit)
    (hv : PM.validateStep st.currentStep st.formData = true)
    (hid : st.smsId.isSome = true)
    (hinc : jsBlank st.formData.criterios_inclusion = false)
    (hexc : jsBlank st.formData.criterios_exclusion = false) :
    (updRes = .ok () →
      (PM.handleSubmit st store updRes).store.get "sms_draft" = none
      ∧ (PM.handleSubmit st store updRes).store.get "sms_step" = none
      ∧ (PM.handleSubmit st store updRes).store.get "sms_id" = none)
    ∧ (∀ m, updRes = .exn m → (PM.handleSubmit st store updRes).store = store) := by
  obtain ⟨sid, hsid⟩ := Option.isSome_iff_exists.mp hid
  have hv' : (PM.validateStepErrors st.currentStep st.formData).isEmpty = true := hv
  constructor
  · intro hok
    have hstore : (PM.handleSubmit st store updRes).store
        = ((store.remove "sms_draft").remove "sms_step").remove "sms_id" := by
      simp [PM.handleSubmit, hv', hsid, hinc, hexc, hok]
    rw [hstore]
    refine ⟨?_, ?_, Store.get_remove_self _ _⟩
    · rw [Store.get_remove_other _ _ _ (by decide), Store.get_remove_other _ _ _ (by decide)]
      exact Store.get_remove_self _ _
    · rw [Store.get_remove_other _ _ _ (by decide)]
      exact Store.get_remove_self _ _
  · intro m hm
    simp [PM.handleSubmit, hv', hsid, hinc, hexc, hm]

/-- Witness for C7 at a concrete completed wizard, for both a resolving
and a rejecting save. -/
theorem handleSubmit_draft_cleanup_witness :
    ((PM.handleSubmit ⟨some 5, 3, ⟨"t", "a", "p", "", "", "", "q", .num 2000, .num 2025, "i", "e"⟩, {}⟩
      [("sms_draft", "d"), ("sms_step", "3"), ("sms_id", "5")] (.ok ())).store.get "sms_draft" = none
    ∧ (PM.handleSubmit ⟨some 5, 3, ⟨"t", "a", "p", "", "", "", "q", .num 2000, .num 2025, "i", "e"⟩, {}⟩
      [("sms_draft", "d"), ("sms_step", "3"), ("sms_id", "5")] (.ok ())).store.get "sms_step" = none
    ∧ (PM.handleSubmit ⟨some 5, 3, ⟨"t", "a", "p", "", "", "", "q", .num 2000, .num 2025, "i", "e"⟩, {}⟩
      [("sms_draft", "d"), ("sms_step", "3"), ("sms_id", "5")] (.ok ())).store.get "sms_id" = none)
    ∧ (PM.handleSubmit ⟨some 5, 3, ⟨"t", "a", "p", "", "", "", "q", .num 2000, .num 2025, "i", "e"⟩, {}⟩
      [("sms_draft", "d"), ("sms_step", "3"), ("sms_id", "5")] (.exn "down")).store
      = [("sms_draft", "d"), ("sms_step", "3"), ("sms_id", "5")] :=
  ⟨(handleSubmit_draft_cleanup ⟨some 5, 3, ⟨"t", "a", "p", "", "", "", "q", .num 2000, .num 2025, "i", "e"⟩, {}⟩
      [("sms_draft", "d"), ("sms_step", "3"), ("sms_id", "5")] (.ok ())
      (by decide) (by decide) (by decide) (by decide)).1 rfl,
   (handleSubmit_draft_cleanup ⟨some 5, 3, ⟨"t", "a", "p", "", "", "", "q", .num 2000, .num 2025, "i", "e"⟩, {}⟩
      [("sms_draft", "d"), ("sms_step", "3"), ("sms_id", "5")] (.exn "down")
      (by decide) (by decide) (by decide) (by decide)).2 "down" rfl⟩

end TesisV1

namespace TesisV1

theorem validateArticleData_titulo (a : SmsService.ArticleData) :
    (SmsService.validateArticleData a).errors.titulo
      = if !jsStrTruthy a.titulo || jsBlank (a.titulo.getD "") then
          some "El título es obligatorio" else none := by
  unfold SmsService.validateArticleData
  repeat' split
  all_goals rfl

theorem validateArticleData_isValid (a : SmsService.ArticleData) :
    (SmsService.validateArticleData a).isValid
      = (SmsService.validateArticleData a).errors.isEmpty := by
  unfold SmsService.validateArticleData
  repeat' split
  all_goals rfl

/-- C6: title non-emptiness is checked wherever a title is validated:
step-1 validation records 'El título es obligatorio' exactly when
`titulo_estudio` is blank, and `validateArticleData` rejects, with a
`titulo` error, every article whose `titulo` is absent or blank. -/
theorem title_required_everywhere (fd : PM.FormData) (a : SmsService.ArticleData) :
    ((PM.validateStepErrors 1 fd).titulo_estudio = some "El título es obligatorio"
      ↔ jsBlank fd.titulo_estudio = true)
    ∧ ((a.titulo = none ∨ ∃ s, a.titulo = some s ∧ jsBlank s = true) →
      (SmsService.validateArticleData a).isValid = false
      ∧ (SmsService.validateArticleData a).errors.titulo = some "El título es obligatorio") := by
  constructor
  · unfold PM.validateStepErrors
    by_cases ht : jsBlank fd.titulo_estudio <;>
      by_cases ha : jsBlank fd.autores <;>
      by_cases hp : jsBlank fd.pregunta_principal <;>
      simp [ht, ha, hp]
  · intro h
    have hcond : (!jsStrTruthy a.titulo || jsBlank (a.titulo.getD "")) = true := by
      rcases h with h | ⟨s, hs, hblank⟩
      · simp [h, jsStrTruthy]
      · rcases eq_or_ne s "" with rfl | hne
        · simp [hs, jsStrTruthy]
        · simp [hs, jsStrTruthy, hblank]
    have htit : (SmsService.validateArticleData a).errors.titulo
        = some "El título es obligatorio" := by
      rw [validateArticleData_titulo, if_pos hcond]
    refine ⟨?_, htit⟩
    rw [validateArticleData_isValid]
    unfold SmsService.ArticleErrors.isEmpty
    rw [htit]
    rfl

/-- Witness for C6 at an article whose title is a blank string. -/
theorem title_required_everywhere_witness :
    (SmsService.validateArticleData ⟨some " ", some "A", none, none, none⟩).isValid = false
    ∧ (SmsService.validateArticleData ⟨some " ", some "A", none, none, none⟩).errors.titulo
      = some "El título es obligatorio" :=
  (title_required_everywhere ⟨"t", "a", "p", "", "", "", "q", .num 2000, .num 2025, "i", "e"⟩
    ⟨some " ", some "A", none, none, none⟩).2 (Or.inr ⟨" ", rfl, by decide⟩)

theorem processFiles_length_le (now : Nat) (files : List Sources.JSFile) :
    ∀ i, (Sources.processFiles now i files).1.length ≤ files.length := by
  induction files with
  | nil => intro i; simp [Sources.processFiles]
  | cons f rest ih =>
    intro i
    simp only [Sources.processFiles]
    split
    · simpa using Nat.le_succ_of_le (ih (i + 1))
    · split
      · simpa using Nat.le_succ_of_le (ih (i + 1))
      · simpa using Nat.succ_le_succ (ih (i + 1))

theorem processFiles_good (now : Nat) (files : List Sources.JSFile) :
    ∀ i e, e ∈ (Sources.processFiles now i files).1 → Sources.goodEntry e = true := by
  induction files with
  | nil => intro i e he; simp [Sources.processFiles] at he
  | cons f rest ih =>
    intro i e he
    simp only [Sources.processFiles] at he
    split at he
    · exact ih _ e (by simpa using he)
    · split at he
      · exact ih _ e (by simpa using he)
      · next h1 h2 =>
        simp only [List.mem_cons] at he
        rcases he with rfl | hmem
        · have hft : f.ftype = "application/pdf" := by simpa using h1
          have hsz : f.size ≤ 10 * 1024 * 1024 := by omega
          simp [Sources.goodEntry, hft, hsz]
        · exact ih _ e hmem

theorem handleFiles_invariant (now : Nat) (l : List Sources.UploadedFile)
    (files : List Sources.JSFile) (h : Sources.listInvariant l) :
    Sources.listInvariant (Sources.handleFiles now l files).1 := by
  unfold Sources.handleFiles
  split
  · exact h
  · next hgt =>
    constructor
    · have h1 := processFiles_length_le now files 0
      have h2 : ¬(l.length + files.length > 40) := hgt
      simp only [List.length_append]
      omega
    · intro e he
      rcases List.mem_append.mp he with h1 | h2
      · exact h.2 e h1
      · exact processFiles_good now files 0 e h2

theorem handleRemoveFile_invariant (id : Nat) (l : List Sources.UploadedFile)
    (h : Sources.listInvariant l) :
    Sources.listInvariant (Sources.handleRemoveFile id l) :=
  ⟨le_trans (List.length_filter_le _ _) h.1,
   fun e he => h.2 e (List.mem_of_mem_filter he)⟩

theorem applyOp_invariant (l : List Sources.UploadedFile) (op : Sources.SourcesOp)
    (h : Sources.listInvariant l) : Sources.listInvariant (Sources.applyOp l op) := by
  cases op with
  | addFiles now files => exact handleFiles_invariant now l files h
  | removeFile id => exact handleRemoveFile_invariant id l h

theorem runOps_invariant (ops : List Sources.SourcesOp) :
    ∀ l, Sources.listInvariant l → Sources.listInvariant (Sources.runOps l ops) := by
  induction ops with
  | nil => intro l h; exact h
  | cons op rest ih =>
    intro l h
    exact ih (Sources.applyOp l op) (applyOp_invariant l op h)

/-- C9: starting from the empty upload list, any sequence of `handleFiles`
and `handleRemoveFile` interactions leaves at most 40 entries, each created
from a PDF of at most 10MB; and a batch whose raw size would push the list
past 40 is rejected wholesale. -/
theorem sources_upload_list_bounds (ops : List Sources.SourcesOp) (now : Nat)
    (uploaded : List Sources.UploadedFile) (files : List Sources.JSFile) :
    Sources.listInvariant (Sources.runOps [] ops)
    ∧ (uploaded.length + files.length > 40 →
      (Sources.handleFiles now uploaded files).1 = uploaded) := by
  constructor
  · exact runOps_invariant ops [] ⟨by simp, by simp⟩
  · intro h
    simp [Sources.handleFiles, h]

/-- Witness for C9: a concrete one-batch run satisfies the invariant, and a
41-entry list makes `handleFiles` reject a further one-file batch wholesale. -/
theorem sources_upload_list_bounds_witness :
    Sources.listInvariant (Sources.runOps []
      [.addFiles 0 [⟨"a.pdf", "application/pdf", 5⟩, ⟨"b.txt", "text/plain", 5⟩]])
    ∧ (Sources.handleFiles 7
        (List.replicate 41 ⟨1, "a", 2, ⟨"a", "application/pdf", 2⟩⟩)
        [⟨"c.pdf", "application/pdf", 9⟩]).1
      = List.replicate 41 ⟨1, "a", 2, ⟨"a", "application/pdf", 2⟩⟩ :=
  ⟨(sources_upload_list_bounds
      [.addFiles 0 [⟨"a.pdf", "application/pdf", 5⟩, ⟨"b.txt", "text/plain", 5⟩]]
      7 (List.replicate 41 ⟨1, "a", 2, ⟨"a", "application/pdf", 2⟩⟩)
      [⟨"c.pdf", "application/pdf", 9⟩]).1,
   (sources_upload_list_bounds
      [.addFiles 0 [⟨"a.pdf", "application/pdf", 5⟩, ⟨"b.txt", "text/plain", 5⟩]]
      7 (List.replicate 41 ⟨1, "a", 2, ⟨"a", "application/pdf", 2⟩⟩)
      [⟨"c.pdf", "application/pdf", 9⟩]).2 (by decide)⟩

end TesisV1
